import Mathlib

/-!
Verification of the powerplai hockey analytics backend.

Shallow embedding of the core algorithms of the repository:
games-schedule upsert semantics (`src/backend/src/ingestion/games.py`),
game-log catch-up and daily-update ledger logic
(`src/backend/src/ingestion/startup_updates.py`),
the player prediction engine (`src/backend/src/agents/predictions.py`),
the copilot query dispatch and team normalization
(`src/backend/src/agents/copilot.py`),
and the document chunker (`src/backend/src/agents/rag.py`).

Python floats are modelled as exact rationals for the arithmetic layer and as
real numbers for the probability layer (which uses `exp`); machine dates are
modelled as integer day numbers.
-/

namespace Powerplai

/-! ### Games table rows and the schedule upsert
(`games.py`, `ingest_schedule_for_date`, lines 139-160)

A row of the `games` table; the columns written by the schedule ingestion
INSERT.  Nullable columns are `Option`.  Dates and times are integer day /
second numbers. -/

structure GameRow where
  nhl_game_id : Nat
  season : String
  game_type : Nat
  game_date : Option Int
  start_time_utc : Option Int
  venue : Option String
  home_team_abbrev : String
  away_team_abbrev : Option String
  home_score : Option Nat
  away_score : Option Nat
  game_state : String
  is_completed : Bool
deriving Repr, DecidableEq

/-- The effect of the games upsert on a single row keyed by `nhl_game_id`:
`INSERT ... ON CONFLICT (nhl_game_id) DO UPDATE SET home_score =
EXCLUDED.home_score, away_score = EXCLUDED.away_score, game_state =
EXCLUDED.game_state, is_completed = EXCLUDED.is_completed` — when a row
already exists, exactly those four columns are replaced by the incoming
values and all other columns keep their stored values. -/
def mergeGameUpsert (existing : Option GameRow) (incoming : GameRow) : GameRow :=
  match existing with
  | none => incoming
  | some old =>
      { old with
        home_score := incoming.home_score
        away_score := incoming.away_score
        game_state := incoming.game_state
        is_completed := incoming.is_completed }

/-- A stored, completed game holding non-null scores. -/
def storedFinalGame : GameRow :=
  { nhl_game_id := 2025020001
    season := "20252026"
    game_type := 2
    game_date := some 20397
    start_time_utc := some 1762473600
    venue := some "Scotiabank Arena"
    home_team_abbrev := "TOR"
    away_team_abbrev := some "BOS"
    home_score := some 3
    away_score := some 2
    game_state := "OFF"
    is_completed := true }

/-- An incoming schedule record for the same `nhl_game_id` whose source payload
carries no scores (`homeTeam.score` / `awayTeam.score` absent, parsed to null
by `parse_game_from_schedule`). -/
def incomingNullScoreGame : GameRow :=
  { nhl_game_id := 2025020001
    season := "20252026"
    game_type := 2
    game_date := some 20397
    start_time_utc := some 1762473600
    venue := some "Scotiabank Arena"
    home_team_abbrev := "TOR"
    away_team_abbrev := some "BOS"
    home_score := none
    away_score := none
    game_state := "FUT"
    is_completed := false }

/-! ### Game-log catch-up and the daily job ledger
(`startup_updates.py`, `catchup_game_logs` lines 130-223, `run_daily_updates`
lines 563-641)

Dates are integer day numbers; `seasonStartDay` stands for October 1 of the
starting year of the current season (`date(int(season[:4]), 10, 1)`). -/

/-- `MAX_CATCHUP_DAYS = 14`. -/
def maxCatchupDays : Int := 14

/-- The stats dict built by `catchup_game_logs`. -/
structure CatchupStats where
  days_missed : Int
  games_found : Nat
  logs_updated : Nat
  start_date : Option Int
  end_date : Option Int
deriving Repr, DecidableEq

/-- The initial all-zero stats dict of `catchup_game_logs`. -/
def zeroCatchupStats : CatchupStats :=
  { days_missed := 0, games_found := 0, logs_updated := 0
    start_date := none, end_date := none }

/-- `catchup_game_logs`: `ledger` is `last_game_log_date` from the progress
file, `today` is `date.today()`.  The external fetch outcomes are abstracted
as `scheduleGames` (games found by `ingest_schedule_range`) and `logsIngested`
(logs upserted by `ingest_all_player_game_logs`).  Returns the stats dict, the
new ledger value, and whether any fetch was performed. -/
def catchupGameLogs (ledger : Option Int) (seasonStartDay today : Int)
    (scheduleGames logsIngested : Nat) : CatchupStats × Option Int × Bool :=
  let start_date : Int :=
    match ledger with
    | none => max seasonStartDay (today - maxCatchupDays)
    | some last => last + 1
  if start_date ≥ today then
    (zeroCatchupStats, ledger, false)
  else
    let days_missed := today - start_date
    let stats : CatchupStats :=
      { days_missed := days_missed
        games_found := scheduleGames
        logs_updated := if days_missed > 0 then logsIngested else 0
        start_date := some start_date
        end_date := some (today - 1) }
    (stats, some (today - 1), true)

/-- The game-log step of `run_daily_updates`: on success it calls
`set_last_game_log_date(date.today())`, so the ledger is set to `today`
itself. -/
def dailyGameLogLedgerAfter (today : Int) : Option Int :=
  some today

/-- The ledger value `catchup_game_logs` writes on a run that performed work:
`set_last_game_log_date(today - timedelta(days=1))`. -/
def catchupLedgerWritten (today : Int) : Option Int :=
  some (today - 1)

/-! ### Prediction engine (`predictions.py`)

Model constants (lines 24-41). -/

/-- `WEIGHTS["recent_form"] = 0.30`. -/
def wRecentForm : ℚ := 0.30
/-- `WEIGHTS["season_baseline"] = 0.25`. -/
def wSeasonBaseline : ℚ := 0.25
/-- `WEIGHTS["h2h_history"] = 0.15`. -/
def wH2hHistory : ℚ := 0.15
/-- `WEIGHTS["home_away"] = 0.10`. -/
def wHomeAway : ℚ := 0.10
/-- `WEIGHTS["goalie_matchup"] = 0.10`. -/
def wGoalieMatchup : ℚ := 0.10
/-- `WEIGHTS["team_pace"] = 0.10`. -/
def wTeamPace : ℚ := 0.10

/-- `MIN_GAMES_RECENT = 3`. -/
def minGamesRecent : Nat := 3
/-- `MIN_GAMES_SEASON = 10`. -/
def minGamesSeason : Nat := 10
/-- `MIN_GAMES_H2H = 3`. -/
def minGamesH2h : Nat := 3

/-- `LEAGUE_AVG_SAVE_PCT = 0.905`. -/
def leagueAvgSavePct : ℚ := 0.905
/-- `LEAGUE_AVG_GOALS_PER_GAME = 3.10` (per team). -/
def leagueAvgGoalsPerGame : ℚ := 3.10

/-- One aggregated row of a player's last-N game logs, as selected by the
`_get_recent_form` subquery (goals, assists, points, shots per game). -/
structure GameLogEntry where
  goals : Nat
  assists : Nat
  points : Nat
  shots : Nat
deriving Repr, DecidableEq

/-- The dict returned by `_get_recent_form` (lines 526-569): keys `games`,
`ppg`, `gpg`, `avg_shots`, `goal_ratio`.  There is no `season_ppg` key. -/
structure RecentForm where
  games : Nat
  ppg : ℚ
  gpg : ℚ
  avg_shots : ℚ
  goal_ratio : ℚ
deriving Repr, DecidableEq

/-- `_get_recent_form` over the aggregated last-N rows: `COUNT`, `SUM(goals)`,
`SUM(points)`, `AVG(shots)`, then the dict construction with its falsy-value
defaults (`avg_shots` falls back to 2.5 when the average is 0, `goal_ratio`
falls back to 0.4 when points are 0). -/
def getRecentForm (rows : List GameLogEntry) : RecentForm :=
  let games := rows.length
  if games = 0 then
    { games := 0, ppg := 0, gpg := 0, avg_shots := 0, goal_ratio := 0.4 }
  else
    let goals : ℚ := (rows.map (fun r => (r.goals : ℚ))).sum
    let points : ℚ := (rows.map (fun r => (r.points : ℚ))).sum
    let shotsAvg : ℚ := (rows.map (fun r => (r.shots : ℚ))).sum / games
    { games := games
      ppg := points / games
      gpg := goals / games
      avg_shots := if shotsAvg ≠ 0 then shotsAvg else 2.5
      goal_ratio := if points > 0 then goals / points else 0.4 }

/-- `recent.get("season_ppg", 0)` in `_calculate_player_prediction` (lines
372 and 374): the dict built by `_get_recent_form` never contains a
`season_ppg` key, so this lookup always returns the default `0`. -/
def recentFormSeasonPpg (_recent : RecentForm) : ℚ := 0

/-- The dict returned by `_get_season_stats` (lines 571-593). -/
structure SeasonStats where
  games : Nat
  ppg : ℚ
  gpg : ℚ
  xg_per_game : ℚ
deriving Repr, DecidableEq

/-- The dict returned by `_get_h2h_stats` (lines 595-623). -/
structure H2hStats where
  games : Nat
  ppg : ℚ
  gpg : ℚ
deriving Repr, DecidableEq

/-- The dict returned by `_get_home_away_stats` (lines 625-666). -/
structure HomeAwayStats where
  home_ppg : ℚ
  away_ppg : ℚ
  adjustment : ℚ
deriving Repr, DecidableEq

/-- A goalie dict inside the matchup context (`name`, `save_pct`; `save_pct`
may be absent). -/
structure GoalieInfo where
  name : String
  save_pct : Option ℚ
deriving Repr, DecidableEq

/-- The matchup context dict built by `_get_matchup_context` (lines 261-305),
restricted to the keys `_calculate_player_prediction` reads. -/
structure MatchupContext where
  home_goalie : Option GoalieInfo
  away_goalie : Option GoalieInfo
  expected_total_goals : ℚ
deriving Repr, DecidableEq

/-- The human-readable factor strings emitted by
`_calculate_player_prediction`; each constructor stands for one f-string
together with the values interpolated into it. -/
inductive Factor where
  /-- `f"Hot streak: {recent_form_ppg:.2f} PPG in last {recent['games']} games"` -/
  | hotStreak (ppg : ℚ) (games : Nat)
  /-- `f"Cold streak: {recent_form_ppg:.2f} PPG in last {recent['games']} games"` -/
  | coldStreak (ppg : ℚ) (games : Nat)
  /-- `f"Strong history vs {opponent}: {h2h_ppg:.2f} PPG in {h2h['games']} games"` -/
  | strongHistory (opponent : String) (ppg : ℚ) (games : Nat)
  /-- `f"Struggles vs {opponent}: {h2h_ppg:.2f} PPG in {h2h['games']} games"` -/
  | struggles (opponent : String) (ppg : ℚ) (games : Nat)
  /-- `f"Plays {direction} {loc}: {home_away_adjustment:+.2f} PPG adjustment"` -/
  | homeAwaySplit (better : Bool) (home : Bool) (adj : ℚ)
  /-- `f"Favorable goalie matchup: {opponent_goalie_name} ({opponent_goalie_sv_pct:.3f} SV%)"` -/
  | favorableGoalie (name : String) (sv : ℚ)
  /-- `f"Tough goalie matchup: {opponent_goalie_name} ({opponent_goalie_sv_pct:.3f} SV%)"` -/
  | toughGoalie (name : String) (sv : ℚ)
  /-- `f"High-scoring game expected: {expected_total:.1f} total goals"` -/
  | highScoring (total : ℚ)
  /-- `f"Low-scoring game expected: {expected_total:.1f} total goals"` -/
  | lowScoring (total : ℚ)
  /-- `"Limited data - prediction less reliable"` -/
  | limitedData
deriving Repr, DecidableEq

/-- Step 1 gate: `recent["ppg"] if recent["games"] >= MIN_GAMES_RECENT else None`. -/
def gatedRecentPpg (recent : RecentForm) : Option ℚ :=
  if recent.games ≥ minGamesRecent then some recent.ppg else none

/-- Step 2 gate: `season["ppg"] if season["games"] >= MIN_GAMES_SEASON else None`. -/
def gatedSeasonPpg (season : SeasonStats) : Option ℚ :=
  if season.games ≥ minGamesSeason then some season.ppg else none

/-- Step 3 gate: `h2h["ppg"] if h2h["games"] >= MIN_GAMES_H2H else None`. -/
def gatedH2hPpg (h2h : H2hStats) : Option ℚ :=
  if h2h.games ≥ minGamesH2h then some h2h.ppg else none

/-- Lines 371-375: hot/cold streak factors.  The comparison baseline is
`recent.get("season_ppg", 0)`, i.e. `recentFormSeasonPpg`. -/
def streakFactors (recent : RecentForm) : List Factor :=
  match gatedRecentPpg recent with
  | none => []
  | some rppg =>
      if rppg > recentFormSeasonPpg recent * 1.2 then
        [Factor.hotStreak rppg recent.games]
      else if rppg < recentFormSeasonPpg recent * 0.8 then
        [Factor.coldStreak rppg recent.games]
      else []

/-- Lines 385-389: head-to-head factors, baseline `(season_avg_ppg or 0)`. -/
def h2hFactors (opponent : String) (h2h : H2hStats) (seasonPpg : Option ℚ) :
    List Factor :=
  match gatedH2hPpg h2h with
  | none => []
  | some hppg =>
      if hppg > (seasonPpg.getD 0) * 1.3 then
        [Factor.strongHistory opponent hppg h2h.games]
      else if hppg < (seasonPpg.getD 0) * 0.7 then
        [Factor.struggles opponent hppg h2h.games]
      else []

/-- Lines 395-398: home/away factor when `abs(home_away_adjustment) > 0.1`. -/
def homeAwayFactors (isHome : Bool) (adj : ℚ) : List Factor :=
  if |adj| > 0.1 then [Factor.homeAwaySplit (adj > 0) isHome adj] else []

/-- Lines 400-421, step 5: goalie matchup.  Returns the adjustment, the
opponent goalie name, the save percentage, and any factor.  A save
percentage of `0.0` is falsy in Python and is treated like a missing one for
the adjustment. -/
def goalieStep (ctx : Option MatchupContext) (isHome : Bool) :
    ℚ × Option String × Option ℚ × List Factor :=
  match ctx with
  | none => (0, none, none, [])
  | some mc =>
      match (if isHome then mc.away_goalie else mc.home_goalie) with
      | none => (0, none, none, [])
      | some g =>
          match g.save_pct with
          | none => (0, some g.name, none, [])
          | some sv =>
              if sv ≠ 0 then
                let sv_diff := leagueAvgSavePct - sv
                let adj := sv_diff * 5.0
                let fs :=
                  if sv_diff > 0.01 then [Factor.favorableGoalie g.name sv]
                  else if sv_diff < -0.01 then [Factor.toughGoalie g.name sv]
                  else []
                (adj, some g.name, some sv, fs)
              else (0, some g.name, some sv, [])

/-- Lines 423-438, step 6: pace adjustment from the expected total goals. -/
def paceStep (ctx : Option MatchupContext) : ℚ × List Factor :=
  match ctx with
  | none => (0, [])
  | some mc =>
      let expected_total := mc.expected_total_goals
      let league_avg_total := leagueAvgGoalsPerGame * 2
      let pace_diff := expected_total - league_avg_total
      let adj := pace_diff * 0.10
      let fs :=
        if pace_diff > 0.5 then [Factor.highScoring expected_total]
        else if pace_diff < -0.5 then [Factor.lowScoring expected_total]
        else []
      (adj, fs)

/-- Lines 441-454: the `components` list of (value, weight) pairs for the
components whose source data passed its minimum-games gate. -/
def baseComponents (recentPpg seasonPpg h2hPpg : Option ℚ) : List (ℚ × ℚ) :=
  (match recentPpg with | some v => [(v, wRecentForm)] | none => []) ++
  (match seasonPpg with | some v => [(v, wSeasonBaseline)] | none => []) ++
  (match h2hPpg with | some v => [(v, wH2hHistory)] | none => [])

/-- Line 457: `total_weight = sum(weights_used) if weights_used else 1.0`. -/
def totalWeight (comps : List (ℚ × ℚ)) : ℚ :=
  if comps.isEmpty then 1 else (comps.map Prod.snd).sum

/-- Lines 460-462: `expected_points += value * (weight / total_weight)`. -/
def basePoints (comps : List (ℚ × ℚ)) : ℚ :=
  comps.foldl (fun acc vw => acc + vw.1 * (vw.2 / totalWeight comps)) 0

/-- Lines 456-470: the weighted expected points — renormalized base plus the
three additive adjustments scaled by their fixed weights, clamped at 0. -/
def calcExpectedPoints (recent : RecentForm) (season : SeasonStats)
    (h2h : H2hStats) (homeAway : HomeAwayStats) (ctx : Option MatchupContext)
    (isHome : Bool) : ℚ :=
  let comps := baseComponents (gatedRecentPpg recent) (gatedSeasonPpg season)
      (gatedH2hPpg h2h)
  let ep := basePoints comps
      + homeAway.adjustment * wHomeAway
      + (goalieStep ctx isHome).1 * wGoalieMatchup
      + (paceStep ctx).1 * wTeamPace
  max 0 ep

/-- Line 473: `goal_ratio = recent.get("goal_ratio", 0.4) if recent["games"]
> 0 else 0.4`. -/
def goalRatioOf (recent : RecentForm) : ℚ :=
  if recent.games > 0 then recent.goal_ratio else 0.4

/-- Lines 484-489: games analyzed and confidence score, with the +0.1 boost
(clamped at 1) when the matchup context has both goalies. -/
def gamesAnalyzed (recent : RecentForm) (season : SeasonStats)
    (h2h : H2hStats) : Nat :=
  recent.games + season.games + h2h.games

/-- `matchup_context and matchup_context.get("home_goalie") and
matchup_context.get("away_goalie")` (line 488). -/
def hasBothGoalies (ctx : Option MatchupContext) : Bool :=
  match ctx with
  | some mc => mc.home_goalie.isSome && mc.away_goalie.isSome
  | none => false

/-- Lines 485-489: `confidence_score = min(1.0, games_analyzed / 50)`, then
`min(1.0, confidence_score + 0.1)` when both goalies are present. -/
def confidenceScore (ga : Nat) (bothGoalies : Bool) : ℚ :=
  let cs := min 1 ((ga : ℚ) / 50)
  if bothGoalies then min 1 (cs + 0.1) else cs

/-- Lines 491-496: the confidence tier from the (unrounded) score. -/
def confidenceTier (cs : ℚ) : String :=
  if cs ≥ 0.7 then "high"
  else if cs ≥ 0.4 then "medium"
  else "low"

/-- The full ordered factor list: steps 1, 3, 4, 5, 6 in code order, then the
limited-data factor appended in the `low` branch of the tier computation
(line 497). -/
def calcFactors (recent : RecentForm) (season : SeasonStats) (h2h : H2hStats)
    (homeAway : HomeAwayStats) (ctx : Option MatchupContext) (isHome : Bool)
    (opponent : String) : List Factor :=
  streakFactors recent
    ++ h2hFactors opponent h2h (gatedSeasonPpg season)
    ++ homeAwayFactors isHome homeAway.adjustment
    ++ (goalieStep ctx isHome).2.2.2
    ++ (paceStep ctx).2
    ++ (if confidenceScore (gamesAnalyzed recent season h2h)
            (hasBothGoalies ctx) < 0.4
        then [Factor.limitedData] else [])

/-- `round(q, n)` — rounding to `n` decimal places on exact rationals. -/
def roundDec (n : Nat) (q : ℚ) : ℚ :=
  (round (q * 10 ^ n) : ℤ) / 10 ^ n

/-- The rational-valued fields of the returned `PlayerPrediction`
(probabilities, which need `exp`, live in `PredictionProbs` below). -/
structure PredictionCore where
  expected_goals : ℚ
  expected_assists : ℚ
  expected_points : ℚ
  expected_shots : ℚ
  recent_form_ppg : ℚ
  season_avg_ppg : ℚ
  h2h_ppg : Option ℚ
  home_away_adjustment : ℚ
  goalie_adjustment : ℚ
  pace_adjustment : ℚ
  opponent_goalie : Option String
  opponent_goalie_sv_pct : Option ℚ
  confidence : String
  confidence_score : ℚ
  games_analyzed : Nat
  factors : List Factor
deriving Repr, DecidableEq

/-- `_calculate_player_prediction` (lines 348-524), rational part: assembles
the returned `PlayerPrediction` fields with the code's rounding and
falsy-value defaults (`round(x, 2) if x else 0` maps both `None` and `0.0`
to `0`). -/
def calcPlayerPrediction (recent : RecentForm) (season : SeasonStats)
    (h2h : H2hStats) (homeAway : HomeAwayStats) (ctx : Option MatchupContext)
    (isHome : Bool) (opponent : String) : PredictionCore :=
  let ep := calcExpectedPoints recent season h2h homeAway ctx isHome
  let gr := goalRatioOf recent
  let eg := ep * gr
  let ea := ep * (1 - gr)
  let ga := gamesAnalyzed recent season h2h
  let cs := confidenceScore ga (hasBothGoalies ctx)
  let gstep := goalieStep ctx isHome
  { expected_goals := roundDec 2 eg
    expected_assists := roundDec 2 ea
    expected_points := roundDec 2 ep
    expected_shots := roundDec 1 recent.avg_shots
    recent_form_ppg :=
      match gatedRecentPpg recent with
      | some v => if v ≠ 0 then roundDec 2 v else 0
      | none => 0
    season_avg_ppg :=
      match gatedSeasonPpg season with
      | some v => if v ≠ 0 then roundDec 2 v else 0
      | none => 0
    h2h_ppg :=
      match gatedH2hPpg h2h with
      | some v => if v ≠ 0 then some (roundDec 2 v) else none
      | none => none
    home_away_adjustment := roundDec 2 homeAway.adjustment
    goalie_adjustment := roundDec 2 gstep.1
    pace_adjustment := roundDec 2 (paceStep ctx).1
    opponent_goalie := gstep.2.1
    opponent_goalie_sv_pct :=
      match gstep.2.2.1 with
      | some sv => if sv ≠ 0 then some (roundDec 3 sv) else none
      | none => none
    confidence := confidenceTier cs
    confidence_score := roundDec 2 cs
    games_analyzed := ga
    factors := calcFactors recent season h2h homeAway ctx isHome opponent }

/-- Lines 477-481: the Poisson-style probability of at least one goal,
`1 - e^(-expected_goals)` with floor branch `0.05`. -/
noncomputable def probGoal (expectedGoals : ℚ) : ℝ :=
  if expectedGoals > 0 then 1 - Real.exp (-(expectedGoals : ℝ)) else 0.05

/-- `prob_point = 1 - e^(-expected_points)` with floor branch `0.1`. -/
noncomputable def probPoint (expectedPoints : ℚ) : ℝ :=
  if expectedPoints > 0 then 1 - Real.exp (-(expectedPoints : ℝ)) else 0.1

/-- `prob_multi_point = 1 - e^(-λ) - λ·e^(-λ)` with floor branch `0.02`. -/
noncomputable def probMultiPoint (expectedPoints : ℚ) : ℝ :=
  if expectedPoints > 0 then
    1 - Real.exp (-(expectedPoints : ℝ))
      - (expectedPoints : ℝ) * Real.exp (-(expectedPoints : ℝ))
  else 0.02

/-- `round(x, n)` on the real-valued probability layer. -/
noncomputable def roundDecR (n : Nat) (x : ℝ) : ℝ :=
  (round (x * 10 ^ n) : ℤ) / 10 ^ n

/-- The probability fields of the returned `PlayerPrediction`, rounded to 3
decimals (lines 505-507). -/
structure PredictionProbs where
  prob_goal : ℝ
  prob_point : ℝ
  prob_multi_point : ℝ

/-- The probability part of `_calculate_player_prediction`, computed from the
same unrounded expected values as `calcPlayerPrediction`. -/
noncomputable def calcPredictionProbs (recent : RecentForm)
    (season : SeasonStats) (h2h : H2hStats) (homeAway : HomeAwayStats)
    (ctx : Option MatchupContext) (isHome : Bool) : PredictionProbs :=
  let ep := calcExpectedPoints recent season h2h homeAway ctx isHome
  let eg := ep * goalRatioOf recent
  { prob_goal := roundDecR 3 (probGoal eg)
    prob_point := roundDecR 3 (probPoint ep)
    prob_multi_point := roundDecR 3 (probMultiPoint ep) }

/-! ### Copilot query dispatch (`copilot.py`, `query` lines 65-166 and
`_classify_query` lines 168-222) -/

/-- The classification dict returned by `_classify_query`.  Missing keys read
through `.get` are falsy, modelled as `false` / `[]` / `none`. -/
structure Classification where
  type : String
  players : List String
  teams : List String
  stats : List String
  timeframe : Option String
  is_leaders_query : Bool
  is_all_teams_query : Bool
  is_prediction_query : Bool
  is_tonight_query : Bool
  is_trade_query : Bool
deriving Repr, DecidableEq

/-- The fallback classification returned when parsing the classifier output
fails (line 222): `{"type": "unknown", "players": [], "teams": [],
"stats": []}` — every other key is absent, hence falsy. -/
def fallbackClassification : Classification :=
  { type := "unknown", players := [], teams := [], stats := []
    timeframe := none
    is_leaders_query := false, is_all_teams_query := false
    is_prediction_query := false, is_tonight_query := false
    is_trade_query := false }

/-- The outcome of each data-retrieval helper invoked by `query`, abstracted:
`none`/`[]` when the helper returns no context. -/
structure FetchOutcomes where
  predictionCtx : Option String
  tradeCtx : Option String
  allTeamsCtx : Option String
  teamCtx : Option String
  leadersCtx : Option String
  playerCtx : Option String
  ragHits : List String
deriving Repr, DecidableEq

/-- The labelled Markdown section headers appended to `context_parts`. -/
inductive ContextPart where
  | scoringPredictions (body : String)
  | tradeAnalysis (body : String)
  | allTeamsBreakdown (body : String)
  | teamStatistics (body : String)
  | leagueLeaders (body : String)
  | playerStatistics (body : String)
  | relatedAnalysis (body : String)
deriving Repr, DecidableEq

/-- The source tags recorded in `sources`. -/
inductive SourceTag where
  | prediction
  | trade
  | sql (data : String)
  | rag
deriving Repr, DecidableEq

/-- The dispatch logic of `query` (lines 88-158): the `if`/`elif` chain over
the classification, then the independent players check, then the RAG step.
Returns `(context_parts, sources)` in accumulation order. -/
def copilotDispatch (c : Classification) (includeRag : Bool)
    (f : FetchOutcomes) : List ContextPart × List SourceTag :=
  let step1 : List ContextPart × List SourceTag :=
    if c.is_prediction_query || c.type == "matchup_prediction"
        || c.type == "tonight_prediction" then
      match f.predictionCtx with
      | some body => ([ContextPart.scoringPredictions body],
                      [SourceTag.prediction])
      | none => ([], [])
    else if c.is_trade_query || c.type == "trade_suggestion" then
      match f.tradeCtx with
      | some body => ([ContextPart.tradeAnalysis body], [SourceTag.trade])
      | none => ([], [])
    else if c.is_all_teams_query then
      match f.allTeamsCtx with
      | some body => ([ContextPart.allTeamsBreakdown body],
                      [SourceTag.sql "all_teams_breakdown"])
      | none => ([], [])
    else if !c.teams.isEmpty then
      match f.teamCtx with
      | some body => ([ContextPart.teamStatistics body],
                      [SourceTag.sql "team_stats"])
      | none => ([], [])
    else if c.is_leaders_query || c.type == "leaders" then
      match f.leadersCtx with
      | some body => ([ContextPart.leagueLeaders body],
                      [SourceTag.sql "league_leaders"])
      | none => ([], [])
    else ([], [])
  let step2 : List ContextPart × List SourceTag :=
    if !c.players.isEmpty then
      match f.playerCtx with
      | some body => (step1.1 ++ [ContextPart.playerStatistics body],
                      step1.2 ++ [SourceTag.sql "player_stats"])
      | none => step1
    else step1
  if includeRag then
    match f.ragHits with
    | [] => step2
    | hit :: _ => (step2.1 ++ [ContextPart.relatedAnalysis hit],
                   step2.2 ++ [SourceTag.rag])
  else step2

/-! ### Team normalization (`copilot.py`, `_normalize_teams` lines 940-994)

Python string operations modelled on the character lists underlying
`String`. -/

/-- `str.lower()`. -/
def pyLower (s : String) : String :=
  String.mk (s.data.map Char.toLower)

/-- `str.upper()`. -/
def pyUpper (s : String) : String :=
  String.mk (s.data.map Char.toUpper)

/-- `str.strip()`. -/
def pyStripChars (l : List Char) : List Char :=
  ((l.dropWhile Char.isWhitespace).reverse.dropWhile Char.isWhitespace).reverse

/-- `str.strip()` on `String`. -/
def pyStrip (s : String) : String :=
  String.mk (pyStripChars s.data)

/-- Whether `pat` occurs at the head of `l`. -/
def charsStartWith : List Char → List Char → Bool
  | [], _ => true
  | _ :: _, [] => false
  | p :: ps, c :: cs => p == c && charsStartWith ps cs

/-- Whether `pat` occurs anywhere inside `l` (Python `pat in l`). -/
def charsContain (pat : List Char) : List Char → Bool
  | [] => pat.isEmpty
  | c :: cs => charsStartWith pat (c :: cs) || charsContain pat cs

/-- Python substring test `sub in big`. -/
def strIn (sub big : String) : Bool :=
  charsContain sub.data big.data

/-- The `team_mapping` alias table of `_normalize_teams`, in source order. -/
def teamAliasTable : List (String × String) :=
  [("toronto", "TOR"), ("maple leafs", "TOR"), ("leafs", "TOR"),
   ("montreal", "MTL"), ("canadiens", "MTL"), ("habs", "MTL"),
   ("ottawa", "OTT"), ("senators", "OTT"), ("sens", "OTT"),
   ("boston", "BOS"), ("bruins", "BOS"),
   ("buffalo", "BUF"), ("sabres", "BUF"),
   ("detroit", "DET"), ("red wings", "DET"),
   ("florida", "FLA"), ("panthers", "FLA"),
   ("tampa", "TBL"), ("tampa bay", "TBL"), ("lightning", "TBL"),
   ("carolina", "CAR"), ("hurricanes", "CAR"), ("canes", "CAR"),
   ("new jersey", "NJD"), ("devils", "NJD"),
   ("rangers", "NYR"), ("new york rangers", "NYR"),
   ("islanders", "NYI"), ("new york islanders", "NYI"),
   ("philadelphia", "PHI"), ("flyers", "PHI"),
   ("pittsburgh", "PIT"), ("penguins", "PIT"), ("pens", "PIT"),
   ("washington", "WSH"), ("capitals", "WSH"), ("caps", "WSH"),
   ("columbus", "CBJ"), ("blue jackets", "CBJ"),
   ("chicago", "CHI"), ("blackhawks", "CHI"), ("hawks", "CHI"),
   ("colorado", "COL"), ("avalanche", "COL"), ("avs", "COL"),
   ("dallas", "DAL"), ("stars", "DAL"),
   ("minnesota", "MIN"), ("wild", "MIN"),
   ("nashville", "NSH"), ("predators", "NSH"), ("preds", "NSH"),
   ("st louis", "STL"), ("st. louis", "STL"), ("blues", "STL"),
   ("winnipeg", "WPG"), ("jets", "WPG"),
   ("arizona", "ARI"), ("coyotes", "ARI"),
   ("utah", "UTA"), ("utah hockey club", "UTA"),
   ("anaheim", "ANA"), ("ducks", "ANA"),
   ("calgary", "CGY"), ("flames", "CGY"),
   ("edmonton", "EDM"), ("oilers", "EDM"),
   ("los angeles", "LAK"), ("kings", "LAK"),
   ("san jose", "SJS"), ("sharks", "SJS"),
   ("seattle", "SEA"), ("kraken", "SEA"),
   ("vancouver", "VAN"), ("canucks", "VAN"),
   ("vegas", "VGK"), ("golden knights", "VGK"), ("knights", "VGK")]

/-- `_normalize_teams`: for each input, skip falsy (empty) strings; exact
alias lookup on `team.lower().strip()`; else uppercase any 3-character
input; else the first alias key related by substring in either direction;
else drop the input silently. -/
def normalizeTeams (teams : List String) : List String :=
  teams.foldl
    (fun result team =>
      if team = "" then result
      else
        let team_lower := pyStrip (pyLower team)
        match teamAliasTable.lookup team_lower with
        | some ab => result ++ [ab]
        | none =>
            if team.length = 3 then result ++ [pyUpper team]
            else
              match teamAliasTable.find?
                  (fun kv => strIn kv.1 team_lower || strIn team_lower kv.1) with
              | some kv => result ++ [kv.2]
              | none => result)
    []

/-! ### Document chunking (`rag.py`, `chunk_text` lines 134-173)

Text modelled as the character list of a Python `str`. -/

/-- Python slice `s[a:b]` for `0 ≤ a ≤ b` (out-of-range indices clamp). -/
def pySlice (s : List Char) (a b : Nat) : List Char :=
  (s.take b).drop a

/-- `s.rfind(sub, a, b)`: the greatest `i` with `a ≤ i`, the match fitting
inside `s[a:b]`, and `sub` occurring at `i`; `none` when there is none
(Python returns -1). -/
def pyRfind (s sub : List Char) (a b : Nat) : Option Nat :=
  let ub := min b s.length
  (List.range (ub + 1)).foldl
    (fun acc i =>
      if a ≤ i ∧ i + sub.length ≤ ub ∧ charsStartWith sub (s.drop i)
      then some i else acc)
    none

/-- One sentence-boundary attempt of the `for punct in [". ", "! ", "? "]`
loop: the new `end` when this punctuation yields a usable break. -/
def sentenceBreakEnd (s : List Char) (chunkSize start endA : Nat)
    (punct : List Char) : Option Nat :=
  match pyRfind s punct start endA with
  | some sb => if sb > start + chunkSize / 2 then some (sb + 2) else none
  | none => none

/-- The sentence-break half of the boundary search: the first punctuation in
`". ", "! ", "? "` whose last occurrence is usable, else the hard cut at
`start + chunk_size`. -/
def sentenceFallback (s : List Char) (chunkSize start : Nat) : Nat :=
  ((sentenceBreakEnd s chunkSize start (start + chunkSize)
      ('.' :: ' ' :: [])).orElse
    fun _ => (sentenceBreakEnd s chunkSize start (start + chunkSize)
        ('!' :: ' ' :: [])).orElse
      fun _ => sentenceBreakEnd s chunkSize start (start + chunkSize)
        ('?' :: ' ' :: [])).getD (start + chunkSize)

/-- The adjusted chunk end: paragraph break preferred, then the first usable
sentence break, then the hard cut at `start + chunk_size` (no adjustment at
all when the hard cut already reaches the end of the text). -/
def chunkEnd (s : List Char) (chunkSize start : Nat) : Nat :=
  if start + chunkSize < s.length then
    match pyRfind s ('\n' :: '\n' :: []) start (start + chunkSize) with
    | some pb =>
        if pb > start + chunkSize / 2 then pb + 2
        else sentenceFallback s chunkSize start
    | none => sentenceFallback s chunkSize start
  else start + chunkSize

/-- The `while start < len(text)` loop of `chunk_text`, with explicit fuel;
`none` means the fuel ran out (the termination theorem shows it never does
for the default parameters). -/
def chunkLoop (s : List Char) (chunkSize overlap : Nat) :
    Nat → Nat → Option (List (List Char))
  | 0, _ => none
  | fuel + 1, start =>
      if start < s.length then
        let e := chunkEnd s chunkSize start
        let chunk := pyStripChars (pySlice s start e)
        match chunkLoop s chunkSize overlap fuel (e - overlap) with
        | some rest => some (chunk :: rest)
        | none => none
      else some []

/-- `chunk_text`: retained whole when the text fits in one chunk, otherwise
the loop followed by the empty-chunk filter. -/
def chunk_text (s : List Char) (chunkSize overlap : Nat) :
    Option (List (List Char)) :=
  if s.length ≤ chunkSize then some [s]
  else
    match chunkLoop s chunkSize overlap (s.length + 1) 0 with
    | some chunks => some (chunks.filter (fun c => !c.isEmpty))
    | none => none

/-! ### Spec-side definitions for refinement claims -/

/-- The spec formula for the renormalized base contribution
(`expected_points_base = Σ v·w / Σ w` over the available components; 0 when
none are available). -/
def specRenormalizedBase (avail : List (ℚ × ℚ)) : ℚ :=
  if avail = [] then 0
  else (avail.map (fun vw => vw.1 * vw.2)).sum / (avail.map Prod.snd).sum

/-- The spec formula for the confidence score: `min(1, games_analyzed / 50)`,
plus 0.10 clamped to 1 when the matchup context includes both goalies. -/
def specConfidenceScore (ga : Nat) (bothGoalies : Bool) : ℚ :=
  if bothGoalies then min 1 (min 1 ((ga : ℚ) / 50) + 0.10)
  else min 1 ((ga : ℚ) / 50)

/-! ## Theorems -/

/-- C1, counterexample: a stored FINAL game with scores 3-2 merged with an
incoming schedule record carrying null scores for the same `nhl_game_id`
loses both stored scores — the upsert does not use COALESCE-style merging. -/
theorem c1_counterexample_upsert_clears_scores :
    storedFinalGame.home_score = some 3 ∧
    storedFinalGame.away_score = some 2 ∧
    incomingNullScoreGame.nhl_game_id = storedFinalGame.nhl_game_id ∧
    incomingNullScoreGame.home_score = none ∧
    incomingNullScoreGame.away_score = none ∧
    (mergeGameUpsert (some storedFinalGame) incomingNullScoreGame).home_score = none ∧
    (mergeGameUpsert (some storedFinalGame) incomingNullScoreGame).away_score = none := by
  decide

/-- C1, amended: for every game upsert through the schedule ingestion path,
the conflicting row's `home_score`, `away_score`, `game_state` and
`is_completed` are unconditionally overwritten with the incoming values (so
incoming null scores clear stored non-null scores), while every other stored
column is preserved; a fresh key inserts the incoming row unchanged. -/
theorem c1_upsert_overwrites_scores (old incoming : GameRow) :
    (mergeGameUpsert (some old) incoming).home_score = incoming.home_score ∧
    (mergeGameUpsert (some old) incoming).away_score = incoming.away_score ∧
    (mergeGameUpsert (some old) incoming).game_state = incoming.game_state ∧
    (mergeGameUpsert (some old) incoming).is_completed = incoming.is_completed ∧
    (mergeGameUpsert (some old) incoming).nhl_game_id = old.nhl_game_id ∧
    (mergeGameUpsert (some old) incoming).season = old.season ∧
    (mergeGameUpsert (some old) incoming).game_type = old.game_type ∧
    (mergeGameUpsert (some old) incoming).game_date = old.game_date ∧
    (mergeGameUpsert (some old) incoming).start_time_utc = old.start_time_utc ∧
    (mergeGameUpsert (some old) incoming).venue = old.venue ∧
    (mergeGameUpsert (some old) incoming).home_team_abbrev = old.home_team_abbrev ∧
    (mergeGameUpsert (some old) incoming).away_team_abbrev = old.away_team_abbrev ∧
    mergeGameUpsert none incoming = incoming :=
  ⟨rfl, rfl, rfl, rfl, rfl, rfl, rfl, rfl, rfl, rfl, rfl, rfl, rfl⟩

/-- C5: on a first-ever catch-up run (`last_game_log_date` unset) on day
`today`, the start date is `max seasonStartDay (today - 14)`; when it is
before `today` the run records the window `[start, today-1]` whose length
`today - start` is at most `MAX_CATCHUP_DAYS = 14`, performs its fetches and
sets the ledger to `today - 1`; when `start ≥ today` the run returns the
zero-result stats without performing any fetches. -/
theorem c5_first_catchup_run (seasonStartDay today : Int)
    (scheduleGames logsIngested : Nat) :
    (max seasonStartDay (today - 14) < today →
      catchupGameLogs none seasonStartDay today scheduleGames logsIngested =
        ({ days_missed := today - max seasonStartDay (today - 14)
           games_found := scheduleGames
           logs_updated := logsIngested
           start_date := some (max seasonStartDay (today - 14))
           end_date := some (today - 1) },
         some (today - 1), true) ∧
      today - max seasonStartDay (today - 14) ≤ 14) ∧
    (today ≤ max seasonStartDay (today - 14) →
      catchupGameLogs none seasonStartDay today scheduleGames logsIngested =
        (zeroCatchupStats, none, false)) := by
  constructor
  · intro h
    have hmax : today - 14 ≤ max seasonStartDay (today - 14) := le_max_right _ _
    refine ⟨?_, by omega⟩
    simp only [catchupGameLogs, maxCatchupDays]
    rw [if_neg (by omega), if_pos (by omega)]
  · intro h
    simp only [catchupGameLogs, maxCatchupDays]
    rw [if_pos (by omega)]

/-- C5 witness: instantiated at `seasonStartDay = 0, today = 10` (working
run, window length 10 ≤ 14, ledger set to 9) and at
`seasonStartDay = 30, today = 10` (already up to date, zero result). -/
theorem c5_first_catchup_run_witness :
    (max (0 : Int) (10 - 14) < 10 ∧ (10 : Int) ≤ max (30 : Int) (10 - 14)) ∧
    catchupGameLogs none 0 10 7 100 =
      ({ days_missed := 10 - max (0 : Int) (10 - 14)
         games_found := 7
         logs_updated := 100
         start_date := some (max (0 : Int) (10 - 14))
         end_date := some (10 - 1) },
       some ((10 : Int) - 1), true) ∧
    (10 : Int) - max (0 : Int) (10 - 14) ≤ 14 ∧
    catchupGameLogs none 30 10 7 100 = (zeroCatchupStats, none, false) :=
  ⟨⟨by decide, by decide⟩,
   ((c5_first_catchup_run 0 10 7 100).1 (by decide)).1,
   ((c5_first_catchup_run 0 10 7 100).1 (by decide)).2,
   (c5_first_catchup_run 30 10 7 100).2 (by decide)⟩

/-- C8: the daily job records `last_game_log_date = today` (not `today - 1`
as the catch-up job does), so a catch-up run on the next day computes
`start = today + 1 ≥ today + 1` and returns the zero-result stats without
performing any work, leaving the ledger unchanged. -/
theorem c8_daily_ledger_blocks_next_catchup (today seasonStartDay : Int)
    (scheduleGames logsIngested : Nat) :
    dailyGameLogLedgerAfter today = some today ∧
    catchupLedgerWritten today = some (today - 1) ∧
    catchupGameLogs (dailyGameLogLedgerAfter today) seasonStartDay (today + 1)
        scheduleGames logsIngested =
      (zeroCatchupStats, some today, false) := by
  refine ⟨rfl, rfl, ?_⟩
  simp only [catchupGameLogs, dailyGameLogLedgerAfter]
  rw [if_pos (by omega)]

/-- C2 (code bug): with 5 recent games at 0.5 PPG against a 40-game season
baseline of 1.0 PPG, the claim mandates no hot-streak factor (0.5 is not
above 1.2 × 1.0) and a cold-streak factor (0.5 is below 0.8 × 1.0); the code
compares against `recent.get("season_ppg", 0)`, which is always 0, so it
emits the hot-streak factor and can never emit the cold-streak factor. -/
theorem c2_hot_streak_fires_without_season_comparison :
    (calcPlayerPrediction ⟨5, 1/2, 1/10, 2, 2/5⟩ ⟨40, 1, 1/2, 0⟩ ⟨0, 0, 0⟩
        ⟨0, 0, 0⟩ none false "BOS").factors
      = [Factor.hotStreak (1/2) 5] ∧
    ((1/2 : ℚ) ≤ 1.2 * 1) ∧
    ((1/2 : ℚ) < 0.8 * 1) := by
  refine ⟨?_, by norm_num, by norm_num⟩
  simp [calcPlayerPrediction, calcFactors, streakFactors, h2hFactors,
    homeAwayFactors, goalieStep, paceStep, gatedRecentPpg, gatedSeasonPpg,
    gatedH2hPpg, recentFormSeasonPpg, gamesAnalyzed, hasBothGoalies,
    confidenceScore, minGamesRecent, minGamesSeason, minGamesH2h]
  norm_num

/-- Helper: the dispatch of the fallback classification in closed form. -/
lemma copilotDispatch_fallback (includeRag : Bool) (f : FetchOutcomes) :
    copilotDispatch fallbackClassification includeRag f =
      if includeRag then
        match f.ragHits with
        | [] => ([], [])
        | hit :: _ => ([ContextPart.relatedAnalysis hit], [SourceTag.rag])
      else ([], []) := by
  cases includeRag <;> rcases hr : f.ragHits with _ | ⟨hit, rest⟩ <;>
    simp [copilotDispatch, fallbackClassification, hr]

/-- C7: under the fallback classification produced when parsing the
classifier output fails, no prediction, trade, or SQL dispatch branch fires:
every recorded source tag is the RAG tag, every context part is the
related-analysis section, and with RAG disabled the context and sources are
empty. -/
theorem c7_fallback_classification_rag_only (includeRag : Bool)
    (f : FetchOutcomes) :
    (∀ t ∈ (copilotDispatch fallbackClassification includeRag f).2,
        t = SourceTag.rag) ∧
    (∀ p ∈ (copilotDispatch fallbackClassification includeRag f).1,
        ∃ body, p = ContextPart.relatedAnalysis body) ∧
    (includeRag = false →
        copilotDispatch fallbackClassification includeRag f = ([], [])) := by
  rw [copilotDispatch_fallback]
  cases includeRag <;> rcases f.ragHits with _ | ⟨hit, rest⟩ <;> simp

/-- C7 witness: with RAG enabled and one document hit, the only source tag is
the RAG tag; with RAG disabled nothing is dispatched. -/
theorem c7_fallback_classification_rag_only_witness :
    copilotDispatch fallbackClassification false
        ⟨none, none, none, none, none, none, ["doc"]⟩ = ([], []) ∧
    (∀ t ∈ (copilotDispatch fallbackClassification true
        ⟨none, none, none, none, none, none, ["doc"]⟩).2, t = SourceTag.rag) :=
  ⟨(c7_fallback_classification_rag_only false
      ⟨none, none, none, none, none, none, ["doc"]⟩).2.2 rfl,
   (c7_fallback_classification_rag_only true
      ⟨none, none, none, none, none, none, ["doc"]⟩).1⟩

/-- C10: a 3-character input that misses the alias table is returned
uppercased with no validation against known franchise codes, and an input
longer than 3 characters that matches no alias key even partially is
silently dropped from the output. -/
theorem c10_team_normalizer_fallthrough (team : String)
    (hmiss : teamAliasTable.lookup (pyStrip (pyLower team)) = none) :
    (team.length = 3 → normalizeTeams [team] = [pyUpper team]) ∧
    (3 < team.length →
      (∀ kv ∈ teamAliasTable,
          strIn kv.1 (pyStrip (pyLower team)) = false ∧
          strIn (pyStrip (pyLower team)) kv.1 = false) →
      normalizeTeams [team] = []) := by
  constructor
  · intro h3
    have hne : ¬ team = "" := by
      intro he; rw [he] at h3; simp at h3
    simp only [normalizeTeams, List.foldl_cons, List.foldl_nil]
    rw [if_neg hne, hmiss]
    simp only [if_pos h3, List.nil_append]
  · intro h3 hall
    have hne : ¬ team = "" := by
      intro he; rw [he] at h3; simp at h3
    have hfind : teamAliasTable.find?
        (fun kv => strIn kv.1 (pyStrip (pyLower team))
          || strIn (pyStrip (pyLower team)) kv.1) = none := by
      rw [List.find?_eq_none]
      intro kv hkv
      simp [(hall kv hkv).1, (hall kv hkv).2]
    simp only [normalizeTeams, List.foldl_cons, List.foldl_nil]
    rw [if_neg hne, hmiss]
    simp only [if_neg (by omega : ¬ team.length = 3), hfind]

/-- C10 witness: `"xyz"` (3 characters, no alias) maps to `"XYZ"`, and
`"zzzz"` (4 characters, no alias key relates to it by substring) is
dropped. -/
theorem c10_team_normalizer_fallthrough_witness :
    (teamAliasTable.lookup (pyStrip (pyLower "xyz")) = none ∧
      "xyz".length = 3 ∧
      normalizeTeams ["xyz"] = [pyUpper "xyz"]) ∧
    (teamAliasTable.lookup (pyStrip (pyLower "zzzz")) = none ∧
      3 < "zzzz".length ∧
      normalizeTeams ["zzzz"] = []) :=
  ⟨⟨by decide, by decide,
    (c10_team_normalizer_fallthrough "xyz" (by decide)).1 (by decide)⟩,
   ⟨by decide, by decide,
    (c10_team_normalizer_fallthrough "zzzz" (by decide)).2 (by decide)
      (by decide)⟩⟩

/-- Helper: folding `acc + v * (w / T)` sums the products over `T`. -/
lemma foldl_weighted_div (l : List (ℚ × ℚ)) (T : ℚ) :
    ∀ c : ℚ, l.foldl (fun acc vw => acc + vw.1 * (vw.2 / T)) c
      = c + (l.map fun vw => vw.1 * vw.2).sum / T := by
  induction l with
  | nil => intro c; simp
  | cons vw l ih =>
      intro c
      simp only [List.foldl_cons, List.map_cons, List.sum_cons, ih]
      ring

/-- Helper: the code's base-points fold equals the spec's renormalized sum. -/
lemma basePoints_eq_spec (l : List (ℚ × ℚ)) :
    basePoints l = specRenormalizedBase l := by
  rcases l with _ | ⟨vw, l⟩
  · simp [basePoints, specRenormalizedBase]
  · simp only [basePoints, foldl_weighted_div, specRenormalizedBase,
      totalWeight, List.isEmpty_cons, List.map_cons, List.sum_cons]
    simp

/-- C3: the expected-points output is the weight-renormalized sum over
exactly the gated components plus the three adjustments each scaled by 0.10,
clamped at 0 (then rounded to 2 decimals); in particular with recent and
season available and h2h gated out, the base equals
`recent_ppg·(0.30/0.55) + season_ppg·(0.25/0.55)`. -/
theorem c3_base_weight_renormalization (recent : RecentForm)
    (season : SeasonStats) (h2h : H2hStats) (homeAway : HomeAwayStats)
    (ctx : Option MatchupContext) (isHome : Bool) (opponent : String) :
    ((calcPlayerPrediction recent season h2h homeAway ctx isHome
        opponent).expected_points
      = roundDec 2 (max 0 (specRenormalizedBase
          (baseComponents (gatedRecentPpg recent) (gatedSeasonPpg season)
            (gatedH2hPpg h2h))
          + homeAway.adjustment * 0.10 + (goalieStep ctx isHome).1 * 0.10
          + (paceStep ctx).1 * 0.10))) ∧
    (minGamesRecent ≤ recent.games → minGamesSeason ≤ season.games →
      h2h.games < minGamesH2h →
      specRenormalizedBase (baseComponents (gatedRecentPpg recent)
          (gatedSeasonPpg season) (gatedH2hPpg h2h))
        = recent.ppg * (0.30 / 0.55) + season.ppg * (0.25 / 0.55)) := by
  constructor
  · simp only [calcPlayerPrediction, calcExpectedPoints, basePoints_eq_spec,
      wHomeAway, wGoalieMatchup, wTeamPace]
  · intro hr hs hh
    simp only [baseComponents, gatedRecentPpg, gatedSeasonPpg, gatedH2hPpg,
      if_pos hr, if_pos hs, if_neg (by omega : ¬ minGamesH2h ≤ h2h.games),
      List.cons_append, List.nil_append]
    rw [specRenormalizedBase]
    rw [if_neg (by simp)]
    simp only [List.map_cons, List.map_nil, List.sum_cons, List.sum_nil,
      wRecentForm, wSeasonBaseline]
    norm_num
    ring

/-- C3 witness: a player with 5 recent games at 0.5 PPG, a 40-game season at
1.0 PPG and no head-to-head history gets base
`0.5·(0.30/0.55) + 1.0·(0.25/0.55)`. -/
theorem c3_base_weight_renormalization_witness :
    (minGamesRecent ≤ 5 ∧ minGamesSeason ≤ 40 ∧ 0 < minGamesH2h) ∧
    specRenormalizedBase (baseComponents
        (gatedRecentPpg ⟨5, 1/2, 1/10, 2, 2/5⟩)
        (gatedSeasonPpg ⟨40, 1, 1/2, 0⟩) (gatedH2hPpg ⟨0, 0, 0⟩))
      = (1/2 : ℚ) * (0.30 / 0.55) + 1 * (0.25 / 0.55) :=
  ⟨⟨by decide, by decide, by decide⟩,
   (c3_base_weight_renormalization ⟨5, 1/2, 1/10, 2, 2/5⟩ ⟨40, 1, 1/2, 0⟩
      ⟨0, 0, 0⟩ ⟨0, 0, 0⟩ none false "BOS").2 (by decide) (by decide)
      (by decide)⟩

/-- Helper: `round(q, 2)` is exact on rationals whose hundredfold is an
integer. -/
lemma roundDec_two_eq_self (q : ℚ) (z : ℤ) (h : q * 100 = z) :
    roundDec 2 q = q := by
  have h2 : (q * 10 ^ 2 : ℚ) = (z : ℚ) := by norm_num; exact h
  rw [roundDec, h2, round_intCast]
  have hq : q = (z : ℚ) / 100 := by rw [← h]; field_simp
  rw [hq]; norm_num

/-- Helper: the code's confidence score is the spec's formula. -/
lemma confidenceScore_eq_spec (ga : Nat) (b : Bool) :
    confidenceScore ga b = specConfidenceScore ga b := by
  cases b <;> norm_num [confidenceScore, specConfidenceScore]

/-- Helper: the confidence score is exactly representable at 2 decimals, so
the returned rounded field equals the score itself. -/
lemma roundDec_confidenceScore (ga : Nat) (b : Bool) :
    roundDec 2 (confidenceScore ga b) = confidenceScore ga b := by
  have hdiv : ((ga : ℚ) / 50) * 100 = ((2 * ga : ℤ) : ℚ) := by
    push_cast; ring
  rcases le_total (1 : ℚ) ((ga : ℚ) / 50) with h1 | h1
  · have hmin : min (1 : ℚ) ((ga : ℚ) / 50) = 1 := min_eq_left h1
    cases b
    · simp only [confidenceScore, Bool.false_eq_true, if_false, hmin]
      exact roundDec_two_eq_self _ 100 (by norm_num)
    · simp only [confidenceScore, if_true, hmin]
      have hm : min (1 : ℚ) (1 + 0.1) = 1 := by norm_num
      rw [hm]
      exact roundDec_two_eq_self _ 100 (by norm_num)
  · have hmin : min (1 : ℚ) ((ga : ℚ) / 50) = (ga : ℚ) / 50 := min_eq_right h1
    cases b
    · simp only [confidenceScore, Bool.false_eq_true, if_false, hmin]
      exact roundDec_two_eq_self _ (2 * ga) hdiv
    · simp only [confidenceScore, if_true, hmin]
      rcases le_total (1 : ℚ) ((ga : ℚ) / 50 + 0.1) with h2 | h2
      · rw [min_eq_left h2]
        exact roundDec_two_eq_self _ 100 (by norm_num)
      · rw [min_eq_right h2]
        refine roundDec_two_eq_self _ (2 * ga + 10) ?_
        push_cast
        ring

/-- Helper: the streak factors never contain the limited-data factor. -/
lemma limitedData_notMem_streakFactors (r : RecentForm) :
    Factor.limitedData ∉ streakFactors r := by
  unfold streakFactors
  rcases gatedRecentPpg r with _ | v
  · simp
  · dsimp only
    split_ifs <;> simp

/-- Helper: the h2h factors never contain the limited-data factor. -/
lemma limitedData_notMem_h2hFactors (opponent : String) (h : H2hStats)
    (sp : Option ℚ) : Factor.limitedData ∉ h2hFactors opponent h sp := by
  unfold h2hFactors
  rcases gatedH2hPpg h with _ | v
  · simp
  · dsimp only
    split_ifs <;> simp

/-- Helper: the home/away factor is never the limited-data factor. -/
lemma limitedData_notMem_homeAwayFactors (isHome : Bool) (adj : ℚ) :
    Factor.limitedData ∉ homeAwayFactors isHome adj := by
  unfold homeAwayFactors
  split_ifs <;> simp

/-- Helper: the goalie factors never contain the limited-data factor. -/
lemma limitedData_notMem_goalieStep (ctx : Option MatchupContext)
    (isHome : Bool) : Factor.limitedData ∉ (goalieStep ctx isHome).2.2.2 := by
  unfold goalieStep
  rcases ctx with _ | mc
  · simp
  · dsimp only
    rcases (if isHome then mc.away_goalie else mc.home_goalie) with _ | g
    · simp
    · dsimp only
      rcases g.save_pct with _ | sv
      · simp
      · dsimp only
        split_ifs <;> simp

/-- Helper: the pace factors never contain the limited-data factor. -/
lemma limitedData_notMem_paceStep (ctx : Option MatchupContext) :
    Factor.limitedData ∉ (paceStep ctx).2 := by
  unfold paceStep
  rcases ctx with _ | mc
  · simp
  · dsimp only
    split_ifs <;> simp

/-- C6: the confidence score is `min(1, games_analyzed/50)` plus the 0.10
both-goalies boost clamped at 1; it is non-decreasing in `games_analyzed`
and saturates at 1 from 50 games; the tier is high from 0.70, medium from
0.40, and low otherwise, with the limited-data factor emitted exactly in the
low case. -/
theorem c6_confidence_score_monotone_tier (recent : RecentForm)
    (season : SeasonStats) (h2h : H2hStats) (homeAway : HomeAwayStats)
    (ctx : Option MatchupContext) (isHome : Bool) (opponent : String) :
    ((calcPlayerPrediction recent season h2h homeAway ctx isHome
        opponent).games_analyzed = recent.games + season.games + h2h.games) ∧
    ((calcPlayerPrediction recent season h2h homeAway ctx isHome
        opponent).confidence_score
      = specConfidenceScore (gamesAnalyzed recent season h2h)
          (hasBothGoalies ctx)) ∧
    (∀ g1 g2 : Nat, g1 ≤ g2 →
      specConfidenceScore g1 (hasBothGoalies ctx)
        ≤ specConfidenceScore g2 (hasBothGoalies ctx)) ∧
    (∀ g : Nat, 50 ≤ g → specConfidenceScore g (hasBothGoalies ctx) = 1) ∧
    ((calcPlayerPrediction recent season h2h homeAway ctx isHome
        opponent).confidence = "high"
      ↔ 0.7 ≤ confidenceScore (gamesAnalyzed recent season h2h)
          (hasBothGoalies ctx)) ∧
    ((calcPlayerPrediction recent season h2h homeAway ctx isHome
        opponent).confidence = "medium"
      ↔ 0.4 ≤ confidenceScore (gamesAnalyzed recent season h2h)
            (hasBothGoalies ctx) ∧
        confidenceScore (gamesAnalyzed recent season h2h)
            (hasBothGoalies ctx) < 0.7) ∧
    ((calcPlayerPrediction recent season h2h homeAway ctx isHome
        opponent).confidence = "low"
      ↔ confidenceScore (gamesAnalyzed recent season h2h)
          (hasBothGoalies ctx) < 0.4) ∧
    (Factor.limitedData ∈ (calcPlayerPrediction recent season h2h homeAway
        ctx isHome opponent).factors
      ↔ confidenceScore (gamesAnalyzed recent season h2h)
          (hasBothGoalies ctx) < 0.4) := by
  have hmono : ∀ g1 g2 : Nat, g1 ≤ g2 →
      specConfidenceScore g1 (hasBothGoalies ctx)
        ≤ specConfidenceScore g2 (hasBothGoalies ctx) := by
    intro g1 g2 hg
    have hdiv : (g1 : ℚ) / 50 ≤ (g2 : ℚ) / 50 := by
      have hc : (g1 : ℚ) ≤ (g2 : ℚ) := by exact_mod_cast hg
      gcongr
    unfold specConfidenceScore
    split_ifs
    · exact min_le_min le_rfl (add_le_add_right (min_le_min le_rfl hdiv) _)
    · exact min_le_min le_rfl hdiv
  have hsat : ∀ g : Nat, 50 ≤ g →
      specConfidenceScore g (hasBothGoalies ctx) = 1 := by
    intro g hg
    have h1 : (1 : ℚ) ≤ (g : ℚ) / 50 := by
      rw [le_div_iff (by norm_num : (0:ℚ) < 50)]
      have : (50 : ℚ) ≤ (g : ℚ) := by exact_mod_cast hg
      linarith
    unfold specConfidenceScore
    rw [min_eq_left h1]
    split_ifs
    · norm_num
    · rfl
  have htier : (calcPlayerPrediction recent season h2h homeAway ctx isHome
      opponent).confidence = confidenceTier (confidenceScore
        (gamesAnalyzed recent season h2h) (hasBothGoalies ctx)) := rfl
  refine ⟨rfl, ?_, hmono, hsat, ?_, ?_, ?_, ?_⟩
  · show roundDec 2 (confidenceScore (gamesAnalyzed recent season h2h)
        (hasBothGoalies ctx)) = _
    rw [roundDec_confidenceScore, confidenceScore_eq_spec]
  · rw [htier]; unfold confidenceTier
    split_ifs with h1 h2
    · exact iff_of_true rfl h1
    · exact iff_of_false (by decide) h1
    · exact iff_of_false (by decide) h1
  · rw [htier]; unfold confidenceTier
    split_ifs with h1 h2
    · exact iff_of_false (by decide) (fun h => absurd h.2 (not_lt.mpr h1))
    · exact iff_of_true rfl ⟨h2, not_le.mp h1⟩
    · exact iff_of_false (by decide) (fun h => absurd h.1 h2)
  · rw [htier]; unfold confidenceTier
    split_ifs with h1 h2
    · exact iff_of_false (by decide) (by intro h; linarith)
    · exact iff_of_false (by decide) (by intro h; linarith)
    · exact iff_of_true rfl (not_le.mp h2)
  · show Factor.limitedData ∈ calcFactors recent season h2h homeAway ctx
        isHome opponent ↔ _
    unfold calcFactors
    simp [List.mem_append, limitedData_notMem_streakFactors recent,
      limitedData_notMem_h2hFactors opponent h2h (gatedSeasonPpg season),
      limitedData_notMem_homeAwayFactors isHome homeAway.adjustment,
      limitedData_notMem_goalieStep ctx isHome,
      limitedData_notMem_paceStep ctx]

/-- C6 witness: at 10 + 20 + 5 analyzed games with no matchup context the
score is monotone between 20 and 60 games, saturates at 60, the tier is
medium (score 0.70 needs ≥ 0.7: here 35/50 = 0.7 is high), and the
limited-data factor is absent. -/
theorem c6_confidence_score_monotone_tier_witness :
    ((20 : Nat) ≤ 60 ∧ (50 : Nat) ≤ 60) ∧
    specConfidenceScore 20 (hasBothGoalies none)
      ≤ specConfidenceScore 60 (hasBothGoalies none) ∧
    specConfidenceScore 60 (hasBothGoalies none) = 1 :=
  ⟨⟨by decide, by decide⟩,
   (c6_confidence_score_monotone_tier ⟨5, 1/2, 1/10, 2, 2/5⟩ ⟨40, 1, 1/2, 0⟩
      ⟨0, 0, 0⟩ ⟨0, 0, 0⟩ none false "BOS").2.2.1 20 60 (by decide),
   (c6_confidence_score_monotone_tier ⟨5, 1/2, 1/10, 2, 2/5⟩ ⟨40, 1, 1/2, 0⟩
      ⟨0, 0, 0⟩ ⟨0, 0, 0⟩ none false "BOS").2.2.2.1 60 (by decide)⟩

/-- Helper: `round` is monotone. -/
lemma roundMono {α : Type} [LinearOrderedField α] [FloorRing α] {x y : α}
    (h : x ≤ y) : round x ≤ round y := by
  rw [round_eq, round_eq]
  exact Int.floor_le_floor (by linarith)

/-- Helper: rounding to `n` decimals preserves nonnegativity. -/
lemma roundDecR_nonneg {x : ℝ} (n : Nat) (h : 0 ≤ x) : 0 ≤ roundDecR n x := by
  unfold roundDecR
  have h0 : (0 : ℤ) ≤ round (x * 10 ^ n) := by
    have hr := roundMono (show (0 : ℝ) ≤ x * 10 ^ n from
      mul_nonneg h (by positivity))
    simpa using hr
  have : (0 : ℝ) ≤ ((round (x * 10 ^ n) : ℤ) : ℝ) := by exact_mod_cast h0
  positivity

/-- Helper: rounding to `n` decimals preserves the upper bound 1. -/
lemma roundDecR_le_one {x : ℝ} (n : Nat) (h : x ≤ 1) : roundDecR n x ≤ 1 := by
  unfold roundDecR
  have hpow : (0 : ℝ) < 10 ^ n := by positivity
  have h2 : x * 10 ^ n ≤ 10 ^ n := by nlinarith
  have h1 : round (x * 10 ^ n) ≤ (10 : ℤ) ^ n := by
    calc round (x * 10 ^ n) ≤ round ((10 : ℝ) ^ n) := roundMono h2
    _ = (10 : ℤ) ^ n := by
        rw [show ((10 : ℝ) ^ n) = (((10 : ℤ) ^ n : ℤ) : ℝ) by push_cast; ring,
          round_intCast]
  rw [div_le_one hpow]
  exact_mod_cast h1

/-- Helper: rounding to `n` decimals is monotone. -/
lemma roundDecR_mono {x y : ℝ} (n : Nat) (h : x ≤ y) :
    roundDecR n x ≤ roundDecR n y := by
  unfold roundDecR
  have hpow : (0 : ℝ) < 10 ^ n := by positivity
  have h1 : round (x * 10 ^ n) ≤ round (y * 10 ^ n) :=
    roundMono (mul_le_mul_of_nonneg_right h (le_of_lt hpow))
  exact (div_le_div_right hpow).mpr (by exact_mod_cast h1)

/-- Helper: the goal probability lies in [0, 1] for every input. -/
lemma probGoal_bounds (q : ℚ) : 0 ≤ probGoal q ∧ probGoal q ≤ 1 := by
  unfold probGoal
  split_ifs with h
  · have hq : (0 : ℝ) < (q : ℝ) := by exact_mod_cast h
    have he : Real.exp (-(q : ℝ)) ≤ 1 := Real.exp_le_one_iff.mpr (by linarith)
    have hp := Real.exp_pos (-(q : ℝ))
    constructor <;> linarith
  · norm_num

/-- Helper: the point probability lies in [0, 1] for every input. -/
lemma probPoint_bounds (q : ℚ) : 0 ≤ probPoint q ∧ probPoint q ≤ 1 := by
  unfold probPoint
  split_ifs with h
  · have hq : (0 : ℝ) < (q : ℝ) := by exact_mod_cast h
    have he : Real.exp (-(q : ℝ)) ≤ 1 := Real.exp_le_one_iff.mpr (by linarith)
    have hp := Real.exp_pos (-(q : ℝ))
    constructor <;> linarith
  · norm_num

/-- Helper: the multi-point probability lies in [0, 1] for every input; the
lower bound is `(1 + λ)·e^(-λ) ≤ 1`, i.e. `1 + λ ≤ e^λ`. -/
lemma probMultiPoint_bounds (q : ℚ) :
    0 ≤ probMultiPoint q ∧ probMultiPoint q ≤ 1 := by
  unfold probMultiPoint
  split_ifs with h
  · have hq : (0 : ℝ) < (q : ℝ) := by exact_mod_cast h
    have hp := Real.exp_pos (-(q : ℝ))
    have he := Real.add_one_le_exp (q : ℝ)
    have key : (1 + (q : ℝ)) * Real.exp (-(q : ℝ)) ≤ 1 := by
      have step : (1 + (q : ℝ)) * Real.exp (-(q : ℝ))
          ≤ Real.exp (q : ℝ) * Real.exp (-(q : ℝ)) :=
        mul_le_mul_of_nonneg_right (by linarith) (le_of_lt hp)
      rwa [← Real.exp_add, add_neg_cancel, Real.exp_zero] at step
    constructor
    · nlinarith
    · nlinarith [mul_pos hq hp]
  · norm_num

/-- Helper: the multi-point probability never exceeds the point
probability. -/
lemma probMultiPoint_le_probPoint (q : ℚ) : probMultiPoint q ≤ probPoint q := by
  unfold probMultiPoint probPoint
  split_ifs with h
  · have hq : (0 : ℝ) < (q : ℝ) := by exact_mod_cast h
    have := mul_pos hq (Real.exp_pos (-(q : ℝ)))
    linarith
  · norm_num

/-- Helper: rounding to 2 decimals preserves nonnegativity on rationals. -/
lemma roundDec_nonneg {q : ℚ} (n : Nat) (h : 0 ≤ q) : 0 ≤ roundDec n q := by
  unfold roundDec
  have h0 : (0 : ℤ) ≤ round (q * 10 ^ n) := by
    have hr := roundMono (show (0 : ℚ) ≤ q * 10 ^ n from
      mul_nonneg h (by positivity))
    simpa using hr
  have : (0 : ℚ) ≤ ((round (q * 10 ^ n) : ℤ) : ℚ) := by exact_mod_cast h0
  positivity

/-- Helper: rounding the two split summands and their sum to 2 decimals
keeps the rounded parts within 0.01 of the rounded sum: the discrepancy is an
integer number of hundredths below three half-hundredths. -/
lemma roundDec_two_split_close (g a p : ℚ) (h : g + a = p) :
    |roundDec 2 g + roundDec 2 a - roundDec 2 p| ≤ 1 / 100 := by
  unfold roundDec
  have hA := abs_sub_round (g * 10 ^ 2)
  have hB := abs_sub_round (a * 10 ^ 2)
  have hC := abs_sub_round (p * 10 ^ 2)
  set A := round (g * 10 ^ 2) with hAdef
  set B := round (a * 10 ^ 2) with hBdef
  set C := round (p * 10 ^ 2) with hCdef
  have hA2 : |(A : ℚ) - g * 10 ^ 2| ≤ 1 / 2 := by rwa [abs_sub_comm]
  have hB2 : |(B : ℚ) - a * 10 ^ 2| ≤ 1 / 2 := by rwa [abs_sub_comm]
  have hC2 : |(C : ℚ) - p * 10 ^ 2| ≤ 1 / 2 := by rwa [abs_sub_comm]
  have hsum : ((A + B - C : ℤ) : ℚ)
      = ((A : ℚ) - g * 10 ^ 2) + ((B : ℚ) - a * 10 ^ 2)
        - ((C : ℚ) - p * 10 ^ 2)
        + (g * 10 ^ 2 + a * 10 ^ 2 - p * 10 ^ 2) := by
    push_cast
    ring
  have hcancel : g * 10 ^ 2 + a * 10 ^ 2 - p * 10 ^ 2 = 0 := by
    rw [← h]; ring
  have h32 : |((A + B - C : ℤ) : ℚ)| ≤ 3 / 2 := by
    rw [hsum, hcancel, add_zero]
    calc |((A : ℚ) - g * 10 ^ 2) + ((B : ℚ) - a * 10 ^ 2)
          - ((C : ℚ) - p * 10 ^ 2)|
        ≤ |((A : ℚ) - g * 10 ^ 2) + ((B : ℚ) - a * 10 ^ 2)|
          + |(C : ℚ) - p * 10 ^ 2| := abs_sub _ _
      _ ≤ |(A : ℚ) - g * 10 ^ 2| + |(B : ℚ) - a * 10 ^ 2|
          + |(C : ℚ) - p * 10 ^ 2| := by
          have := abs_add ((A : ℚ) - g * 10 ^ 2) ((B : ℚ) - a * 10 ^ 2)
          linarith
      _ ≤ 3 / 2 := by linarith
  have hint : |A + B - C| ≤ 1 := by
    by_contra hgt
    push_neg at hgt
    have h2 : (2 : ℤ) ≤ |A + B - C| := by omega
    have : (2 : ℚ) ≤ |((A + B - C : ℤ) : ℚ)| := by
      rw [← Int.cast_abs]
      exact_mod_cast h2
    linarith
  have hform : (A : ℚ) / 10 ^ 2 + (B : ℚ) / 10 ^ 2 - (C : ℚ) / 10 ^ 2
      = ((A + B - C : ℤ) : ℚ) / 100 := by
    push_cast
    ring
  rw [hform, abs_div, abs_of_pos (by norm_num : (0:ℚ) < 100)]
  rw [div_le_div_iff (by norm_num) (by norm_num)]
  have : |((A + B - C : ℤ) : ℚ)| ≤ 1 := by
    rw [← Int.cast_abs]
    exact_mod_cast hint
  linarith

/-- C4: for every input, the three rounded probabilities lie in [0, 1], the
multi-point probability never exceeds the point probability, the expected
points are nonnegative, and the rounded goal/assist split re-sums to the
rounded expected points within ±0.01. -/
theorem c4_prediction_bounds (recent : RecentForm) (season : SeasonStats)
    (h2h : H2hStats) (homeAway : HomeAwayStats) (ctx : Option MatchupContext)
    (isHome : Bool) (opponent : String) :
    (0 ≤ (calcPredictionProbs recent season h2h homeAway ctx isHome).prob_goal ∧
      (calcPredictionProbs recent season h2h homeAway ctx isHome).prob_goal ≤ 1) ∧
    (0 ≤ (calcPredictionProbs recent season h2h homeAway ctx isHome).prob_point ∧
      (calcPredictionProbs recent season h2h homeAway ctx isHome).prob_point ≤ 1) ∧
    (0 ≤ (calcPredictionProbs recent season h2h homeAway ctx
          isHome).prob_multi_point ∧
      (calcPredictionProbs recent season h2h homeAway ctx
          isHome).prob_multi_point ≤ 1) ∧
    ((calcPredictionProbs recent season h2h homeAway ctx
        isHome).prob_multi_point
      ≤ (calcPredictionProbs recent season h2h homeAway ctx
          isHome).prob_point) ∧
    (0 ≤ (calcPlayerPrediction recent season h2h homeAway ctx isHome
        opponent).expected_points) ∧
    (|(calcPlayerPrediction recent season h2h homeAway ctx isHome
          opponent).expected_goals
        + (calcPlayerPrediction recent season h2h homeAway ctx isHome
            opponent).expected_assists
        - (calcPlayerPrediction recent season h2h homeAway ctx isHome
            opponent).expected_points| ≤ 1 / 100) := by
  have hg := probGoal_bounds
    (calcExpectedPoints recent season h2h homeAway ctx isHome
      * goalRatioOf recent)
  have hp := probPoint_bounds
    (calcExpectedPoints recent season h2h homeAway ctx isHome)
  have hm := probMultiPoint_bounds
    (calcExpectedPoints recent season h2h homeAway ctx isHome)
  have hmp := probMultiPoint_le_probPoint
    (calcExpectedPoints recent season h2h homeAway ctx isHome)
  have hep : 0 ≤ calcExpectedPoints recent season h2h homeAway ctx isHome :=
    le_max_left 0 _
  refine ⟨⟨roundDecR_nonneg 3 hg.1, roundDecR_le_one 3 hg.2⟩,
    ⟨roundDecR_nonneg 3 hp.1, roundDecR_le_one 3 hp.2⟩,
    ⟨roundDecR_nonneg 3 hm.1, roundDecR_le_one 3 hm.2⟩,
    roundDecR_mono 3 hmp, roundDec_nonneg 2 hep, ?_⟩
  exact roundDec_two_split_close _ _ _ (by ring)

/-- Helper: a successful sentence break lands strictly beyond
`start + chunk_size/2 + 2`. -/
lemma sentenceBreakEnd_lower {s : List Char} {chunkSize start endA e : Nat}
    {punct : List Char}
    (h : sentenceBreakEnd s chunkSize start endA punct = some e) :
    start + chunkSize / 2 + 3 ≤ e := by
  unfold sentenceBreakEnd at h
  rcases hfind : pyRfind s punct start endA with _ | sb <;> rw [hfind] at h
  · exact absurd h (by simp)
  · dsimp only at h
    split_ifs at h with hgt
    injection h with h2
    omega

/-- Helper: the sentence-break fallback advances at least
`min chunk_size (chunk_size/2 + 3)` beyond `start`. -/
lemma sentenceFallback_lower (s : List Char) (chunkSize start : Nat) :
    start + min chunkSize (chunkSize / 2 + 3)
      ≤ sentenceFallback s chunkSize start := by
  unfold sentenceFallback
  rcases h1 : sentenceBreakEnd s chunkSize start (start + chunkSize)
      ('.' :: ' ' :: []) with _ | e₁
  · rcases h2 : sentenceBreakEnd s chunkSize start (start + chunkSize)
        ('!' :: ' ' :: []) with _ | e₂
    · rcases h3 : sentenceBreakEnd s chunkSize start (start + chunkSize)
          ('?' :: ' ' :: []) with _ | e₃
      · simp [Option.orElse]
      · have := sentenceBreakEnd_lower h3
        simp [Option.orElse]
        omega
    · have := sentenceBreakEnd_lower h2
      simp [Option.orElse]
      omega
  · have := sentenceBreakEnd_lower h1
    simp [Option.orElse]
    omega

/-- Helper: the adjusted chunk end always advances by at least
`min chunk_size (chunk_size/2 + 3)` beyond `start`. -/
lemma chunkEnd_lower (s : List Char) (chunkSize start : Nat) :
    start + min chunkSize (chunkSize / 2 + 3) ≤ chunkEnd s chunkSize start := by
  unfold chunkEnd
  by_cases hlt : start + chunkSize < s.length
  · rw [if_pos hlt]
    rcases hp : pyRfind s ('\n' :: '\n' :: []) start (start + chunkSize)
        with _ | pb
    · exact sentenceFallback_lower s chunkSize start
    · dsimp only
      by_cases hgt : pb > start + chunkSize / 2
      · rw [if_pos hgt]
        omega
      · rw [if_neg hgt]
        exact sentenceFallback_lower s chunkSize start
  · rw [if_neg hlt]
    omega

/-- Helper: with the default parameters (chunk 500, overlap 50), the loop
terminates on fuel `len - start + 1`: every iteration advances the start by
at least 203 = (500/2 + 3) - 50 - ... ≥ 1. -/
lemma chunkLoop_total (s : List Char) :
    ∀ fuel start, s.length - start < fuel →
      (chunkLoop s 500 50 fuel start).isSome := by
  intro fuel
  induction fuel with
  | zero => intro start h; omega
  | succ f ih =>
      intro start h
      rw [chunkLoop]
      by_cases hs : start < s.length
      · rw [if_pos hs]
        have hadv := chunkEnd_lower s 500 start
        have hrec : s.length - (chunkEnd s 500 start - 50) < f := by
          have : start + 253 ≤ chunkEnd s 500 start := by
            have : min 500 (500 / 2 + 3) = 253 := by norm_num
            omega
          omega
        have := ih (chunkEnd s 500 start - 50) hrec
        rcases hres : chunkLoop s 500 50 f (chunkEnd s 500 start - 50)
            with _ | rest
        · rw [hres] at this; exact absurd this (by simp)
        · simp only [hres]
          simp
      · rw [if_neg hs]
        simp

/-- C9, counterexample: on the empty input the short-text path returns the
input itself as the single chunk without filtering, so the returned chunk is
the empty string. -/
theorem c9_counterexample_empty_chunk :
    chunk_text [] 500 50 = some [[]] ∧
    ¬ (∀ c ∈ ([[]] : List (List Char)), c ≠ []) := by
  constructor
  · rfl
  · intro hall
    exact hall [] (by simp) rfl

/-- C9, amended: for every input and the default parameters, `chunk_text`
terminates (every iteration advances the start index by at least
`500/2 + 3 - 50`), and every returned chunk is non-empty provided the input
itself is non-empty (the short-input path returns the unfiltered input
whole, which is the empty string on empty input). -/
theorem c9_chunk_text_total_nonempty (s : List Char) :
    ∃ cl, chunk_text s 500 50 = some cl ∧
      (s ≠ [] → ∀ c ∈ cl, c ≠ []) := by
  unfold chunk_text
  by_cases hlen : s.length ≤ 500
  · rw [if_pos hlen]
    refine ⟨[s], rfl, fun hs c hc => ?_⟩
    rw [List.mem_singleton] at hc
    subst hc
    exact hs
  · rw [if_neg hlen]
    have htotal := chunkLoop_total s (s.length + 1) 0 (by omega)
    rcases hres : chunkLoop s 500 50 (s.length + 1) 0 with _ | chunks
    · rw [hres] at htotal; exact absurd htotal (by simp)
    · refine ⟨chunks.filter (fun c => !c.isEmpty), rfl, ?_⟩
      intro _ c hc
      have := List.of_mem_filter hc
      simpa using this

/-- C9 witness: applied to the one-character input, whose single chunk is
non-empty. -/
theorem c9_chunk_text_total_nonempty_witness :
    ∃ cl, chunk_text [Char.ofNat 97] 500 50 = some cl ∧
      ∀ c ∈ cl, c ≠ [] := by
  obtain ⟨cl, hcl, hne⟩ := c9_chunk_text_total_nonempty [Char.ofNat 97]
  exact ⟨cl, hcl, hne (by decide)⟩

end Powerplai
